import Mathlib

/-!
AutoDJ dialog (`src/library/autodj/dlgautodj.cpp`)

A shallow embedding of the slots of `DlgAutoDJ`: the widgets the slots touch are
records of the properties they set, the processor behind `m_pAutoDJProcessor` is
an external collaborator whose calls are logged and whose return values are
inputs, and the settings store behind `m_pConfig` is a key/value map. The
`toggled` signal of the enable button, which the constructor connects to
`toggleAutoDJButton`, is delivered inside `setChecked`, as a direct connection
does.
-/

namespace AutoDJProcessor

/-- Modelled from the spec: the enumeration `AutoDJProcessor::AutoDJError`, whose
declaration is in a header that is not part of the sources. The three named
enumerators are the ones `dlgautodj.cpp` switches on; `other` stands for every
further value the `default:` branch of that switch receives. -/
inductive AutoDJError where
  | ADJ_OK
  | ADJ_BOTH_DECKS_PLAYING
  | ADJ_DECKS_3_4_PLAYING
  | other (code : Nat)
  deriving DecidableEq, Repr

/-- Modelled from the spec: the enumeration `AutoDJProcessor::AutoDJState`
(`Disabled`, `P1Loaded`, `Idle`, `LeftFading`, `RightFading`), whose declaration
is in a header that is not part of the sources. `dlgautodj.cpp` names every
enumerator but `ADJ_IDLE`. -/
inductive AutoDJState where
  | ADJ_IDLE
  | ADJ_LEFT_FADING
  | ADJ_RIGHT_FADING
  | ADJ_ENABLE_P1LOADED
  | ADJ_DISABLED
  deriving DecidableEq, Repr

/-- Modelled from the spec: the enumeration `AutoDJProcessor::TransitionMode`,
whose declaration is in a header that is not part of the sources. -/
inductive TransitionMode where
  | FullIntroOutro
  | FadeAtOutroStart
  | FixedFullTrack
  | FixedSkipSilence
  deriving DecidableEq, Repr

/-- The calls `DlgAutoDJ` makes on its processor, in the order they are made. -/
inductive Call where
  | toggleAutoDJ (enable : Bool)
  | setTransitionTime (time : Int)
  | setTransitionMode (mode : Int)
  | skipNext
  | fadeNow
  deriving DecidableEq, Repr

end AutoDJProcessor

open AutoDJProcessor

/-- A `QPushButton`, reduced to the properties the dialog sets. -/
structure QPushButton where
  checked : Bool
  enabled : Bool
  text : String
  icon : String
  toolTip : String
  deriving DecidableEq, Repr

namespace QPushButton

/-- The Qt call `QAbstractButton::setChecked(v)`: writes the checked property
and, when that changes it, emits `toggled(v)`. The second component is the signal
emitted, `none` when the button already had that state; the dialog delivers it
to the slot the constructor connected. -/
def setChecked (b : QPushButton) (v : Bool) : QPushButton × Option Bool :=
  if b.checked = v then (b, none) else ({ b with checked := v }, some v)

def setEnabled (b : QPushButton) (v : Bool) : QPushButton := { b with enabled := v }

def setText (b : QPushButton) (t : String) : QPushButton := { b with text := t }

def setIcon (b : QPushButton) (path : String) : QPushButton := { b with icon := path }

def setToolTip (b : QPushButton) (t : String) : QPushButton := { b with toolTip := t }

end QPushButton

/-- A `QLabel`, reduced to the properties the dialog sets. -/
structure QLabel where
  text : String
  enabled : Bool
  toolTip : String
  deriving DecidableEq, Repr

/-- A `QSpinBox`: an integer value kept inside `[minimum, maximum]`. The range of
`spinBoxTransition` comes from the form file, so it is a field here. -/
structure QSpinBox where
  minimum : Int
  maximum : Int
  value : Int
  deriving DecidableEq, Repr

/-- A `QComboBox` whose items carry an integer as user data: the items in order
(text, data) and the current index (`-1` for none). -/
structure QComboBox where
  items : List (String × Int)
  currentIndex : Int
  deriving DecidableEq, Repr

/-- A `QMessageBox::warning` that was shown: window title and text. -/
structure Warning where
  title : String
  text : String
  deriving DecidableEq, Repr

/-- A key of the settings store: `ConfigKey(group, item)`. -/
structure ConfigKey where
  group : String
  item : String
  deriving DecidableEq, Repr

/-- A value of the settings store. -/
inductive ConfigValue where
  | bool (b : Bool)
  | int (i : Int)
  | str (s : String)
  deriving DecidableEq, Repr

/-- The settings store behind `UserSettingsPointer`: a map from keys to values. -/
abbrev UserSettings := ConfigKey → Option ConfigValue

namespace UserSettings

/-- Writes `v` under `key`, as `UserSettings::setValue(key, v)` does. -/
def setValue (c : UserSettings) (key : ConfigKey) (v : ConfigValue) : UserSettings :=
  fun k => if k = key then some v else c k

end UserSettings

namespace QSpinBox

/-- The Qt call `QSpinBox::setValue`: the value is bounded to the range of the spin box. -/
def setValue (s : QSpinBox) (v : Int) : QSpinBox :=
  { s with value := max s.minimum (min s.maximum v) }

end QSpinBox

namespace AutoDJProcessor.TransitionMode

/-- The cast `static_cast<int>(mode)`: the enumerators count from zero in the order of
their declaration. -/
def toInt : TransitionMode → Int
  | FullIntroOutro => 0
  | FadeAtOutroStart => 1
  | FixedFullTrack => 2
  | FixedSkipSilence => 3

/-- The cast `static_cast<TransitionMode>(n)`, when `n` is the value of an enumerator. -/
def ofInt (n : Int) : Option TransitionMode :=
  if n = 0 then some FullIntroOutro
  else if n = 1 then some FadeAtOutroStart
  else if n = 2 then some FixedFullTrack
  else if n = 3 then some FixedSkipSilence
  else none

end AutoDJProcessor.TransitionMode

namespace QVariant

/-- The Qt call `QVariant::toInt()` of the user data of an item: an invalid variant (`none`)
converts to `0`. -/
def toInt (v : Option Int) : Int := v.getD 0

end QVariant

namespace QComboBox

/-- The Qt call `QComboBox::addItem(text, userData)`: appends; the first item added to an
empty box becomes the current one. -/
def addItem (c : QComboBox) (text : String) (userData : Int) : QComboBox :=
  { items := c.items ++ [(text, userData)]
    currentIndex := if c.items.isEmpty then 0 else c.currentIndex }

/-- Position of the first item whose data is `data`, counting from `start`. -/
def findDataFrom (data : Int) : List (String × Int) → Int → Int
  | [], _ => -1
  | (_, v) :: rest, start => if v = data then start else findDataFrom data rest (start + 1)

/-- The Qt call `QComboBox::findData(data)`: index of the first item with that data, else `-1`. -/
def findData (c : QComboBox) (data : Int) : Int := findDataFrom data c.items 0

/-- The Qt call `QComboBox::itemData(index)`: the data of the item, an invalid variant when
the index is out of range. -/
def itemData (c : QComboBox) (index : Int) : Option Int :=
  if 0 ≤ index then (c.items.get? index.toNat).map Prod.snd else none

/-- The Qt call `QComboBox::setCurrentIndex(index)`; an index out of range selects nothing. -/
def setCurrentIndex (c : QComboBox) (index : Int) : QComboBox :=
  { c with currentIndex := if 0 ≤ index ∧ index < c.items.length then index else -1 }

end QComboBox

def kPreferenceGroupName : String := "[Auto DJ]"
def kRepeatPlaylistPreference : String := "Requeue"
def kEnableButtonName : String := "AutoDjEnable"
def kRepeatButtonName : String := "AutoDjRepeatPlaylist"

/-- The members of `DlgAutoDJ` the slots read and write. `m_icons` gives, for a
skin button name and a state name, the path of its pixmap (empty when the skin
has none); `warnings` and `calls` log the message boxes shown and the processor
calls made. -/
structure DlgAutoDJ where
  pushButtonAutoDJ : QPushButton
  pushButtonFadeNow : QPushButton
  pushButtonSkipNext : QPushButton
  pushButtonRepeatPlaylist : QPushButton
  spinBoxTransition : QSpinBox
  fadeModeCombobox : QComboBox
  labelSelectionInfo : QLabel
  m_icons : String → String → String
  m_pConfig : UserSettings
  warnings : List Warning
  calls : List Call

namespace DlgAutoDJ

/-- The call `QMessageBox::warning(NULL, title, text, QMessageBox::Ok)`. -/
def warning (d : DlgAutoDJ) (title text : String) : DlgAutoDJ :=
  { d with warnings := d.warnings ++ [⟨title, text⟩] }

/-- The call `pushButtonAutoDJ->setChecked(v)` in a slot of the dialog. The
constructor connects the `toggled` signal of `pushButtonAutoDJ` to
`toggleAutoDJButton` (lines 74-75), so a change of the checked state runs that
slot, here `toggled`, before the call returns. `P` is the state of the
processor. -/
def setCheckedAutoDJ {P : Type} (toggled : Bool → DlgAutoDJ × P → Option (DlgAutoDJ × P))
    (v : Bool) (s : DlgAutoDJ × P) : Option (DlgAutoDJ × P) :=
  let d := { s.1 with pushButtonAutoDJ := (s.1.pushButtonAutoDJ.setChecked v).1 }
  match (s.1.pushButtonAutoDJ.setChecked v).2 with
  | some enable => toggled enable (d, s.2)
  | none => some (d, s.2)

/-- Slot `DlgAutoDJ::toggleAutoDJButton(bool enable)`. `toggleAutoDJ` is the
processor's `toggleAutoDJ`: from the state of the processor and `enable` it
gives the error returned and the state of the processor afterwards (the
notifications the processor sends on its own are not part of it). The fuel
bounds the depth of the re-entry through the `toggled` signal: `none` means the
fuel ran out. -/
def toggleAutoDJButton {P : Type} (toggleAutoDJ : P → Bool → AutoDJError × P) :
    Nat → Bool → DlgAutoDJ × P → Option (DlgAutoDJ × P)
  | 0, _, _ => none
  | fuel + 1, enable, s =>
    let error := (toggleAutoDJ s.2 enable).1
    let p := (toggleAutoDJ s.2 enable).2
    let d := { s.1 with calls := s.1.calls ++ [Call.toggleAutoDJ enable] }
    match error with
    | AutoDJError.ADJ_BOTH_DECKS_PLAYING =>
      let d := d.warning "Auto DJ" "One deck must be stopped to enable Auto DJ mode."
      -- Make sure the button becomes unpushed.
      setCheckedAutoDJ (toggleAutoDJButton toggleAutoDJ fuel) false (d, p)
    | AutoDJError.ADJ_DECKS_3_4_PLAYING =>
      let d := d.warning "Auto DJ" "Decks 3 and 4 must be stopped to enable Auto DJ mode."
      setCheckedAutoDJ (toggleAutoDJButton toggleAutoDJ fuel) false (d, p)
    | _ => some (d, p)

/-- The end of `autoDJStateChanged`: the text or the icon of the enable button. -/
def setEnableButtonFace (state : AutoDJState) (stateName : String) (d : DlgAutoDJ) :
    DlgAutoDJ :=
  let pixmapPath := d.m_icons kEnableButtonName stateName
  if pixmapPath.isEmpty then
    let text := if state = AutoDJState.ADJ_DISABLED then "Enable" else "Disable"
    { d with pushButtonAutoDJ := d.pushButtonAutoDJ.setText text }
  else
    { d with pushButtonAutoDJ := d.pushButtonAutoDJ.setIcon pixmapPath }

/-- Slot `DlgAutoDJ::autoDJStateChanged(AutoDJProcessor::AutoDJState state)`.
Its `setChecked` calls run `toggleAutoDJButton` when they change the checked
state of the enable button, with `fuel` for that slot; `none` means the fuel ran
out. -/
def autoDJStateChanged {P : Type} (toggleAutoDJ : P → Bool → AutoDJError × P)
    (fuel : Nat) (state : AutoDJState) (s : DlgAutoDJ × P) : Option (DlgAutoDJ × P) :=
  let toggled := toggleAutoDJButton toggleAutoDJ fuel
  if state = AutoDJState.ADJ_DISABLED then
    (setCheckedAutoDJ toggled false s).map fun r =>
      let d := r.1
      let d := { d with pushButtonAutoDJ := d.pushButtonAutoDJ.setToolTip "Enable Auto DJ" }
      let d := { d with pushButtonFadeNow := d.pushButtonFadeNow.setEnabled false }
      let d := { d with pushButtonSkipNext := d.pushButtonSkipNext.setEnabled false }
      (setEnableButtonFace state "Off" d, r.2)
  else
    -- No matter the mode, you can always disable once it is enabled.
    (setCheckedAutoDJ toggled true s).map fun r =>
      let d := r.1
      let d := { d with pushButtonAutoDJ := d.pushButtonAutoDJ.setToolTip "Disable Auto DJ" }
      -- If fading, you can't hit fade now.
      let d :=
        if state = AutoDJState.ADJ_LEFT_FADING ∨
            state = AutoDJState.ADJ_RIGHT_FADING ∨
            state = AutoDJState.ADJ_ENABLE_P1LOADED then
          { d with pushButtonFadeNow := d.pushButtonFadeNow.setEnabled false }
        else
          { d with pushButtonFadeNow := d.pushButtonFadeNow.setEnabled true }
      -- You can always skip the next track if we are enabled.
      let d := { d with pushButtonSkipNext := d.pushButtonSkipNext.setEnabled true }
      (setEnableButtonFace state "On" d, r.2)

/-- Slot `DlgAutoDJ::transitionTimeChanged(int time)`. -/
def transitionTimeChanged (time : Int) (d : DlgAutoDJ) : DlgAutoDJ :=
  { d with spinBoxTransition := d.spinBoxTransition.setValue time }

/-- Slot `DlgAutoDJ::transitionSliderChanged(int value)`. -/
def transitionSliderChanged (value : Int) (d : DlgAutoDJ) : DlgAutoDJ :=
  { d with calls := d.calls ++ [Call.setTransitionTime value] }

/-- The part of the constructor that fills `fadeModeCombobox` and selects the
entry of the mode the processor holds (`getTransitionMode()`). -/
def setupFadeModeCombobox (mode : TransitionMode) : QComboBox :=
  let c : QComboBox := ⟨[], -1⟩
  let c := c.addItem "Full Intro + Outro" TransitionMode.FullIntroOutro.toInt
  let c := c.addItem "Fade At Outro Start" TransitionMode.FadeAtOutroStart.toInt
  let c := c.addItem "Full Track" TransitionMode.FixedFullTrack.toInt
  let c := c.addItem "Skip Silence" TransitionMode.FixedSkipSilence.toInt
  c.setCurrentIndex (c.findData mode.toInt)

/-- Slot `DlgAutoDJ::slotTransitionModeChanged(int comboboxIndex)`. -/
def slotTransitionModeChanged (comboboxIndex : Int) (d : DlgAutoDJ) : DlgAutoDJ :=
  let mode := QVariant.toInt (d.fadeModeCombobox.itemData comboboxIndex)
  { d with calls := d.calls ++ [Call.setTransitionMode mode] }

/-- Slot `DlgAutoDJ::slotRepeatPlaylistChanged(int checkState)`. -/
def slotRepeatPlaylistChanged (checkState : Int) (d : DlgAutoDJ) : DlgAutoDJ :=
  let checked : Bool := decide (checkState ≠ 0)
  let key : ConfigKey := ⟨kPreferenceGroupName, kRepeatPlaylistPreference⟩
  let d := { d with m_pConfig := d.m_pConfig.setValue key (ConfigValue.bool checked) }
  let stateName := if checked then "On" else "Off"
  let pixmapPath := d.m_icons kRepeatButtonName stateName
  if pixmapPath.isEmpty then
    { d with pushButtonRepeatPlaylist := d.pushButtonRepeatPlaylist.setText "Repeat" }
  else
    { d with pushButtonRepeatPlaylist := d.pushButtonRepeatPlaylist.setIcon pixmapPath }

/-- The loop of `DlgAutoDJ::updateSelectionInfo` that adds up the durations of
the tracks of the selected rows; `getTrack` is the table model's lookup (a row
may resolve to no track) and `getDuration` the track's duration. -/
def selectionDuration {Row Trk D : Type} [Zero D] [Add D]
    (getTrack : Row → Option Trk) (getDuration : Trk → D) (indices : List Row) : D :=
  indices.foldl
    (fun duration index =>
      match getTrack index with
      | some pTrack => duration + getDuration pTrack
      | none => duration)
    0

/-- Slot `DlgAutoDJ::updateSelectionInfo()`; `indices` are the selected rows of the
track table and `formatTime` is `mixxx::DurationBase::formatTime`, which is not
part of the sources. -/
def updateSelectionInfo {Row Trk D : Type} [Zero D] [Add D]
    (formatTime : D → String) (getTrack : Row → Option Trk) (getDuration : Trk → D)
    (indices : List Row) (d : DlgAutoDJ) : DlgAutoDJ :=
  let duration := selectionDuration getTrack getDuration indices
  if ¬ indices.isEmpty then
    let label := ""
    let label := label ++ formatTime duration
    let label := label ++ (" (" ++ toString indices.length ++ ")")
    { d with labelSelectionInfo :=
        { toolTip := "Displays the duration and number of selected tracks."
          text := label
          enabled := true } }
  else
    { d with labelSelectionInfo := { d.labelSelectionInfo with text := "", enabled := false } }

end DlgAutoDJ

/-!
The transition-time loop between dialog and processor
-/

namespace TransitionTimeSync

/-- Modelled from the spec: the dialog together with the transition time the
processor holds; `AutoDJProcessor` itself is not part of the sources. -/
structure Session where
  dlg : DlgAutoDJ
  transitionTime : Int

/-- Modelled from the spec: `AutoDJProcessor::setTransitionTime(time)` as a
processor that stores the value and echoes it through `transitionTimeChanged`.
The echo runs the dialog's `transitionTimeChanged` slot; when that changes the
value of the spin box, the spin box emits `valueChanged`, which the constructor
connects to `transitionSliderChanged`, which calls the processor again. The
fuel bounds the depth of that signal chain. -/
def setTransitionTime : Nat → Int → Session → Option Session
  | 0, _, _ => none
  | fuel + 1, time, s =>
    let s := { s with transitionTime := time }
    let dlg := s.dlg.transitionTimeChanged time
    if dlg.spinBoxTransition.value = s.dlg.spinBoxTransition.value then
      some { s with dlg := dlg }
    else
      let value := dlg.spinBoxTransition.value
      setTransitionTime fuel value { s with dlg := dlg.transitionSliderChanged value }

/-- The user sets the spin box to `v`: the spin box bounds the value and, when
its value changed, emits `valueChanged` into `transitionSliderChanged`, whose
call of the processor is carried out by `setTransitionTime`. -/
def spinBoxEdited (fuel : Nat) (v : Int) (s : Session) : Option Session :=
  let spin := s.dlg.spinBoxTransition.setValue v
  if spin.value = s.dlg.spinBoxTransition.value then
    some s
  else
    let dlg := { s.dlg with spinBoxTransition := spin }
    setTransitionTime fuel spin.value { s with dlg := dlg.transitionSliderChanged spin.value }

end TransitionTimeSync

/-!
The transition scheduler and its strategies, as the specification describes them

`AutoDJProcessor` is not part of the sources; what follows is written from
sections 3, 4.1 and 4.2 of the specification. Seconds and volumes are exact
rationals.
-/

namespace Scheduler

/-- Modelled from the spec: a track (section 3): identifier, duration in
seconds, optional intro and outro cue points. -/
structure Track where
  id : Nat
  duration : ℚ
  introStart : Option ℚ
  introEnd : Option ℚ
  outroStart : Option ℚ
  outroEnd : Option ℚ
  deriving DecidableEq

/-- Modelled from the spec: a deck (section 3). -/
structure Deck where
  index : Nat
  position : ℚ
  duration : ℚ
  playing : Bool
  volume : ℚ
  track : Option Track
  deriving DecidableEq

/-- Modelled from the spec: the results of the enable/disable entry point
(section 6). -/
inductive EnableResult where
  | Ok
  | BothDecksPlaying
  | OtherDecksPlaying
  deriving DecidableEq, Repr

/-- Modelled from the spec: the state of the transition scheduler: the playback
decks, the state of the state machine, the queue and the transition
parameters. -/
structure State where
  decks : List Deck
  state : AutoDJState
  queue : List Track
  mode : TransitionMode
  transitionTime : Int
  repeatPlaylist : Bool
  deriving DecidableEq

/-- Whether the deck of index `i` is playing. -/
def deckPlaying (s : State) (i : Nat) : Bool :=
  s.decks.any (fun d => d.index == i && d.playing)

/-- Whether a playback deck outside indices 0 and 1 is playing. -/
def otherDecksPlaying (s : State) : Bool :=
  s.decks.any (fun d => d.index != 0 && d.index != 1 && d.playing)

/-- Modelled from the spec: disabling (section 4.1): any state goes back to
`Disabled`; mid-fade the previously live deck (the one fading out, which names
the state) is restored to full volume and the other deck is left stopped, its
track kept. -/
def disable (s : State) : State :=
  let restore (live : Nat) (d : Deck) : Deck :=
    if d.index = live then { d with volume := 1 }
    else if d.index = 1 - live then { d with playing := false }
    else d
  match s.state with
  | AutoDJState.ADJ_LEFT_FADING =>
    { s with state := AutoDJState.ADJ_DISABLED, decks := s.decks.map (restore 0) }
  | AutoDJState.ADJ_RIGHT_FADING =>
    { s with state := AutoDJState.ADJ_DISABLED, decks := s.decks.map (restore 1) }
  | _ => { s with state := AutoDJState.ADJ_DISABLED }

/-- Modelled from the spec: `enable(bool on)` (section 4.1). When enabling, the
preconditions are checked in the order the specification lists them, and a
violated one is returned with the state untouched; on success `Disabled` goes to
`Idle` when a deck is already playing and to `P1Loaded` otherwise. -/
def enable (turnOn : Bool) (s : State) : EnableResult × State :=
  if turnOn then
    if deckPlaying s 0 && deckPlaying s 1 then
      (EnableResult.BothDecksPlaying, s)
    else if otherDecksPlaying s then
      (EnableResult.OtherDecksPlaying, s)
    else if s.state = AutoDJState.ADJ_DISABLED then
      let next :=
        if deckPlaying s 0 || deckPlaying s 1 then AutoDJState.ADJ_IDLE
        else AutoDJState.ADJ_ENABLE_P1LOADED
      (EnableResult.Ok, { s with state := next })
    else
      (EnableResult.Ok, s)
  else
    (EnableResult.Ok, disable s)

/-- What a transition strategy returns: the position at which the fade begins
and the duration of the fade, both in seconds. -/
structure Transition where
  trigger : ℚ
  fadeDuration : ℚ
  deriving DecidableEq

/-- Length of the intro of a track, when both its cue points are set. -/
def introLength (t : Track) : Option ℚ :=
  match t.introStart, t.introEnd with
  | some a, some b => some (b - a)
  | _, _ => none

/-- Length of the outro of a track, when both its cue points are set. -/
def outroLength (t : Track) : Option ℚ :=
  match t.outroStart, t.outroEnd with
  | some a, some b => some (b - a)
  | _, _ => none

/-- Modelled from the spec: `FixedFullTrack` (sections 4.2 and 8): the trigger is
the duration minus the configured transition time, which may be negative, and
the fade lasts the configured transition time. -/
def fixedFullTrack (track : Track) (transitionTime : Int) : Transition :=
  { trigger := track.duration - transitionTime
    fadeDuration := transitionTime }

/-- Modelled from the spec: `FixedSkipSilence` (section 4.2): as `FixedFullTrack`,
measured against the last sound (the end of the track minus the trailing
silence, which a collaborator supplies). -/
def fixedSkipSilence (track : Track) (trailingSilence : ℚ) (transitionTime : Int) :
    Transition :=
  { trigger := (track.duration - trailingSilence) - transitionTime
    fadeDuration := transitionTime }

/-- Modelled from the spec: `FullIntroOutro` (section 4.2): the fade lasts the
least of the configured transition time, the outro length and the incoming
track's intro length, or the configured transition time if either cue is unset;
the trigger is the duration minus the fade duration. -/
def fullIntroOutro (track incoming : Track) (transitionTime : Int) : Transition :=
  let fade : ℚ :=
    match outroLength track, introLength incoming with
    | some outro, some intro => min (transitionTime : ℚ) (min outro intro)
    | _, _ => transitionTime
  { trigger := track.duration - fade
    fadeDuration := fade }

/-- Modelled from the spec: `FadeAtOutroStart` (section 4.2): the trigger is the
outro-start cue if set, else the duration minus the configured transition time;
the fade lasts the lesser of the configured transition time and the outro
length if set, capped so that it does not overrun the end of the track. -/
def fadeAtOutroStart (track : Track) (transitionTime : Int) : Transition :=
  let trigger : ℚ :=
    match track.outroStart with
    | some cue => cue
    | none => track.duration - transitionTime
  let fade : ℚ :=
    match outroLength track with
    | some outro => min (transitionTime : ℚ) outro
    | none => transitionTime
  { trigger := trigger
    fadeDuration := min fade (track.duration - trigger) }

/-- Modelled from the spec: the dispatch over the four transition modes. -/
def strategy (mode : TransitionMode) (track incoming : Track) (trailingSilence : ℚ)
    (transitionTime : Int) : Transition :=
  match mode with
  | TransitionMode.FullIntroOutro => fullIntroOutro track incoming transitionTime
  | TransitionMode.FadeAtOutroStart => fadeAtOutroStart track transitionTime
  | TransitionMode.FixedFullTrack => fixedFullTrack track transitionTime
  | TransitionMode.FixedSkipSilence => fixedSkipSilence track trailingSilence transitionTime

/-- Modelled from the spec: the clamp of a trigger to `[0, duration]` that the
scheduler applies before it uses the trigger (section 4.2). -/
def clampTrigger (duration trigger : ℚ) : ℚ :=
  max 0 (min duration trigger)

end Scheduler

/-!
Analysis feature (`src/library/analysisfeature.cpp`)

The feature, reduced to the members `analyzeTracks` and `cleanupAnalyzer` read
and write: the settings store, the analyzer queue (null or a queue of tracks),
the saved BPM-detection setting, the title and the signals emitted.
-/

namespace ConfigValue

/-- The value `QString::toInt()` gives for the decimal text of `i`: `i` itself
when it fits a 32-bit `int`, and `0` when it does not. -/
def intOrZero (i : Int) : Int :=
  if -2147483648 ≤ i ∧ i ≤ 2147483647 then i else 0

/-- The conversion `toInt()` of the text a value is stored as: an integer written
by `ConfigValue(int)` reads as itself, a boolean as `1` or `0`, and text that is
not a number as `0`. -/
def toInt : ConfigValue → Int
  | ConfigValue.bool b => if b then 1 else 0
  | ConfigValue.int i => intOrZero i
  | ConfigValue.str s =>
    match s.toInt? with
    | some i => intOrZero i
    | none => 0

end ConfigValue

namespace UserSettings

/-- The call `getValueString(key)`: the stored value, the empty text when the key
has none. -/
def getValueString (c : UserSettings) (key : ConfigKey) : ConfigValue :=
  (c key).getD (ConfigValue.str "")

/-- The call `set(key, value)`: writes `value` under `key`. -/
def set (c : UserSettings) (key : ConfigKey) (value : ConfigValue) : UserSettings :=
  fun k => if k = key then some value else c k

end UserSettings

/-- The analyzer queue behind `m_pAnalyzerQueue`: the tracks queued for analysis
and whether `stop()` was called. -/
structure AnalyzerQueue (Trk : Type) where
  tracks : List Trk
  stopped : Bool

namespace AnalyzerQueue

/-- The factory `AnalyzerQueue::createAnalysisFeatureAnalyzerQueue`: a new queue
without tracks. -/
def createAnalysisFeatureAnalyzerQueue {Trk : Type} : AnalyzerQueue Trk :=
  { tracks := [], stopped := false }

/-- The call `queueAnalyseTrack(pTrack)`. -/
def queueAnalyseTrack {Trk : Type} (q : AnalyzerQueue Trk) (pTrack : Trk) :
    AnalyzerQueue Trk :=
  { q with tracks := q.tracks ++ [pTrack] }

/-- The call `stop()`. -/
def stop {Trk : Type} (q : AnalyzerQueue Trk) : AnalyzerQueue Trk :=
  { q with stopped := true }

end AnalyzerQueue

/-- The signals `AnalysisFeature` emits in the functions embedded here. -/
inductive AnalysisSignal where
  | featureIsLoading (loading : Bool)
  | analysisActive (active : Bool)
  | trackAnalysisStarted (size : Int)
  deriving DecidableEq, Repr

/-- The members of `AnalysisFeature` that `analyzeTracks` and `cleanupAnalyzer`
read and write; `emitted` logs the signals in the order they are emitted. -/
structure AnalysisFeature (Trk : Type) where
  m_pConfig : UserSettings
  m_pAnalyzerQueue : Option (AnalyzerQueue Trk)
  m_iOldBpmEnabled : Int
  m_analysisTitleName : String
  m_Title : String
  emitted : List AnalysisSignal

namespace AnalysisFeature

/-- The key `ConfigKey("[BPM]","BPMDetectionEnabled")`. -/
def bpmDetectionEnabledKey : ConfigKey := ⟨"[BPM]", "BPMDetectionEnabled"⟩

/-- Emits a signal. -/
def emit {Trk : Type} (f : AnalysisFeature Trk) (signal : AnalysisSignal) :
    AnalysisFeature Trk :=
  { f with emitted := f.emitted ++ [signal] }

/-- The function `AnalysisFeature::setTitleDefault()`. -/
def setTitleDefault {Trk : Type} (f : AnalysisFeature Trk) : AnalysisFeature Trk :=
  let f := { f with m_Title := f.m_analysisTitleName }
  f.emit (AnalysisSignal.featureIsLoading false)

/-- The function `AnalysisFeature::setTitleProgress(int trackNum, int totalNum)`. -/
def setTitleProgress {Trk : Type} (trackNum totalNum : Int) (f : AnalysisFeature Trk) :
    AnalysisFeature Trk :=
  let title := f.m_analysisTitleName ++ " (" ++ toString trackNum ++ " / " ++
    toString totalNum ++ ")"
  let f := { f with m_Title := title }
  f.emit (AnalysisSignal.featureIsLoading false)

/-- The loop of `analyzeTracks` over the track ids: every id that the track DAO
resolves to a track is queued. -/
def queueTracks {TrackId Trk : Type} (getTrack : TrackId → Option Trk)
    (trackIds : List TrackId) (q : AnalyzerQueue Trk) : AnalyzerQueue Trk :=
  trackIds.foldl
    (fun q trackId =>
      match getTrack trackId with
      | some pTrack => q.queueAnalyseTrack pTrack
      | none => q)
    q

/-- The slot `AnalysisFeature::analyzeTracks(QList<TrackId> trackIds)`;
`getTrack` is the lookup of the track DAO. The queue is not null once the first
block has run; the branch for a null queue after it stands for the dereference
of a null pointer and is never taken. -/
def analyzeTracks {TrackId Trk : Type} (getTrack : TrackId → Option Trk)
    (trackIds : List TrackId) (f : AnalysisFeature Trk) : AnalysisFeature Trk :=
  let f :=
    match f.m_pAnalyzerQueue with
    | none =>
      -- Save the old BPM detection prefs setting (on or off)
      let old := (f.m_pConfig.getValueString bpmDetectionEnabledKey).toInt
      let f := { f with m_iOldBpmEnabled := old }
      -- Force BPM detection to be on.
      let f := { f with m_pConfig := f.m_pConfig.set bpmDetectionEnabledKey (ConfigValue.int 1) }
      let queue : AnalyzerQueue Trk := AnalyzerQueue.createAnalysisFeatureAnalyzerQueue
      let f := { f with m_pAnalyzerQueue := some queue }
      f.emit (AnalysisSignal.analysisActive true)
    | some _ => f
  let f :=
    match f.m_pAnalyzerQueue with
    | some q => { f with m_pAnalyzerQueue := some (queueTracks getTrack trackIds q) }
    | none => f
  let f :=
    if trackIds.length > 0 then setTitleProgress 0 trackIds.length f else f
  f.emit (AnalysisSignal.trackAnalysisStarted trackIds.length)

/-- The slot `AnalysisFeature::cleanupAnalyzer()`. -/
def cleanupAnalyzer {Trk : Type} (f : AnalysisFeature Trk) : AnalysisFeature Trk :=
  let f := setTitleDefault f
  let f := f.emit (AnalysisSignal.analysisActive false)
  match f.m_pAnalyzerQueue with
  | some _ =>
    -- the queue is stopped and deleted
    let f := { f with m_pAnalyzerQueue := none }
    -- Restore old BPM detection setting for preferences...
    let old := ConfigValue.int f.m_iOldBpmEnabled
    { f with m_pConfig := f.m_pConfig.set bpmDetectionEnabledKey old }
  | none => f

/-- A run of `analyzeTracks` calls, one for each list of track ids, in order. -/
def analyzeTracksMany {TrackId Trk : Type} (getTrack : TrackId → Option Trk)
    (calls : List (List TrackId)) (f : AnalysisFeature Trk) : AnalysisFeature Trk :=
  calls.foldl (fun f trackIds => analyzeTracks getTrack trackIds f) f

end AnalysisFeature

/-!
ModPlug sound source (`src/sources/soundsourcemodplug.cpp`)

`SINT` values are integers; under the asserted preconditions every frame count
and position below lies between zero and the frame count of the source.
-/

/-- The members of `SoundSourceModPlug`, and of its base class `AudioSource`, that
`tryOpen`, `seekSampleFrame` and `readSampleFrames` read and write: the decoded
16-bit samples, the seek position, and the channel count, frame rate and frame
count of the audio source. -/
structure SoundSourceModPlug where
  m_sampleBuf : List Int
  m_seekPos : Int
  channelCount : Int
  frameRate : Int
  frameCount : Int
  deriving DecidableEq, Repr

/-- The result codes `OK` and `ERR`. -/
inductive Result where
  | OK
  | ERR
  deriving DecidableEq, Repr

namespace SoundSourceModPlug

def kChannelCount : Int := 2
def kBitsPerSample : Int := 16
def kFrameRate : Int := 44100

/-- Modelled from the spec: `AudioSource::samples2frames`, declared in a header
that is not part of the sources: the number of samples divided by the channel
count, truncating. -/
def samples2frames (s : SoundSourceModPlug) (samples : Int) : Int :=
  Int.tdiv samples s.channelCount

/-- Modelled from the spec: `AudioSource::frames2samples`, declared in a header
that is not part of the sources: the number of frames times the channel count. -/
def frames2samples (s : SoundSourceModPlug) (frames : Int) : Int :=
  frames * s.channelCount

/-- Modelled from the spec: `AudioSource::isValidFrameIndex`, declared in a header
that is not part of the sources: an index from zero up to and including the
frame count. -/
def isValidFrameIndex (s : SoundSourceModPlug) (frameIndex : Int) : Bool :=
  decide (0 ≤ frameIndex) && decide (frameIndex ≤ s.frameCount)

/-- The function `SoundSourceModPlug::tryOpen`, from the point where the module
file has been read: `decoded` is `none` when `ModPlug_Load` returns no module,
and otherwise holds the samples the decoding loop leaves in `m_sampleBuf`. -/
def tryOpen (decoded : Option (List Int)) (s : SoundSourceModPlug) :
    Result × SoundSourceModPlug :=
  match decoded with
  | none => (Result.ERR, s)
  | some samples =>
    let s := { s with m_sampleBuf := samples }
    let s := { s with channelCount := kChannelCount }
    let s := { s with frameRate := kFrameRate }
    let s := { s with frameCount := s.samples2frames s.m_sampleBuf.length }
    let s := { s with m_seekPos := 0 }
    (Result.OK, s)

/-- The function `SoundSourceModPlug::seekSampleFrame(SINT frameIndex)`: the
value returned and the source afterwards. -/
def seekSampleFrame (frameIndex : Int) (s : SoundSourceModPlug) :
    Int × SoundSourceModPlug :=
  (frameIndex, { s with m_seekPos := frameIndex })

/-- The sample of the buffer at an index, `none` outside the buffer. -/
def sampleAt (buf : List Int) (index : Int) : Option Int :=
  if 0 ≤ index then buf.get? index.toNat else none

/-- The indices of `m_sampleBuf` that `readSampleFrames` hands to
`SampleUtil::convertS16ToFloat32`: `readSamples` consecutive indices from
`readOffset` on. -/
def readIndices (numberOfFrames : Int) (s : SoundSourceModPlug) : List Int :=
  let readFrames := min (s.frameCount - s.m_seekPos) numberOfFrames
  let readSamples := s.frames2samples readFrames
  let readOffset := s.frames2samples s.m_seekPos
  (List.range readSamples.toNat).map (fun (j : Nat) => readOffset + (j : Int))

/-- What `readSampleFrames` yields: the number of frames returned, the source
afterwards, and the samples written to the output buffer in order, `none`
marking a sample taken from outside `m_sampleBuf`. -/
structure ReadResult (Sample : Type) where
  readFrames : Int
  source : SoundSourceModPlug
  sampleBuffer : List (Option Sample)

/-- The function `SoundSourceModPlug::readSampleFrames(SINT numberOfFrames,
CSAMPLE* sampleBuffer)`; `convert` is the conversion of one 16-bit sample that
`SampleUtil::convertS16ToFloat32`, which is not part of the sources, applies to
each of the samples it is given. -/
def readSampleFrames {Sample : Type} (convert : Int → Sample) (numberOfFrames : Int)
    (s : SoundSourceModPlug) : ReadResult Sample :=
  let readFrames := min (s.frameCount - s.m_seekPos) numberOfFrames
  let sampleBuffer :=
    (readIndices numberOfFrames s).map (fun index => (sampleAt s.m_sampleBuf index).map convert)
  { readFrames := readFrames
    source := { s with m_seekPos := s.m_seekPos + readFrames }
    sampleBuffer := sampleBuffer }

end SoundSourceModPlug

/-!
Sample values
-/

/-- A button as the form file creates it: unchecked, enabled, no text or icon. -/
def QPushButton.blank : QPushButton :=
  { checked := false, enabled := true, text := "", icon := "", toolTip := "" }

/-- A dialog whose enable button is pushed, with a skin that has no pixmaps, an
empty settings store and a transition spin box ranging over `[-9, 90]`. -/
def DlgAutoDJ.sample : DlgAutoDJ :=
  { pushButtonAutoDJ := { QPushButton.blank with checked := true }
    pushButtonFadeNow := QPushButton.blank
    pushButtonSkipNext := QPushButton.blank
    pushButtonRepeatPlaylist := QPushButton.blank
    spinBoxTransition := { minimum := -9, maximum := 90, value := 10 }
    fadeModeCombobox := DlgAutoDJ.setupFadeModeCombobox TransitionMode.FixedFullTrack
    labelSelectionInfo := { text := "", enabled := false, toolTip := "" }
    m_icons := fun _ _ => ""
    m_pConfig := fun _ => none
    warnings := []
    calls := [] }

/-- A processor while both decks are playing, with its AutoDJ state as state:
enabling is refused and changes nothing, disabling succeeds. -/
def AutoDJProcessor.bothDecksPlaying (state : AutoDJState) (enable : Bool) :
    AutoDJError × AutoDJState :=
  if enable then (AutoDJError.ADJ_BOTH_DECKS_PLAYING, state)
  else (AutoDJError.ADJ_OK, AutoDJState.ADJ_DISABLED)

/-- A processor that refuses every call while both decks are playing. -/
def AutoDJProcessor.alwaysRefusing (state : AutoDJState) (_enable : Bool) :
    AutoDJError × AutoDJState :=
  (AutoDJError.ADJ_BOTH_DECKS_PLAYING, state)

/-- The sample dialog as the form file creates it: the enable button is not
pushed. -/
def DlgAutoDJ.fresh : DlgAutoDJ :=
  { DlgAutoDJ.sample with pushButtonAutoDJ := QPushButton.blank }

/-- A track of 180 seconds without cue points. -/
def Scheduler.Track.plain : Scheduler.Track :=
  { id := 1, duration := 180, introStart := none, introEnd := none,
    outroStart := none, outroEnd := none }

/-- A track of 200 seconds whose intro runs from 0 to 10 and whose outro runs
from 180 to 200. -/
def Scheduler.Track.cued : Scheduler.Track :=
  { id := 2, duration := 200, introStart := some 0, introEnd := some 10,
    outroStart := some 180, outroEnd := some 200 }

/-- A disabled scheduler whose decks 0 and 1 are both playing, as is deck 2. -/
def Scheduler.State.allPlaying : Scheduler.State :=
  { decks :=
      [ { index := 0, position := 12, duration := 180, playing := true, volume := 1,
          track := some Scheduler.Track.plain },
        { index := 1, position := 3, duration := 200, playing := true, volume := 1,
          track := some Scheduler.Track.cued },
        { index := 2, position := 0, duration := 180, playing := true, volume := 1,
          track := none } ]
    state := AutoDJState.ADJ_DISABLED
    queue := [Scheduler.Track.cued]
    mode := TransitionMode.FullIntroOutro
    transitionTime := 10
    repeatPlaylist := false }

/-- A table model of four rows: row `r` below 3 holds a track of `60 * (r + 1)`
seconds, row 3 resolves to no track. -/
def DlgAutoDJ.sampleGetTrack (row : Nat) : Option Nat :=
  if row < 3 then some (60 * (row + 1)) else none

/-- A stand-in for `formatTime` that prints the number of seconds. -/
def DlgAutoDJ.sampleFormatTime (seconds : Nat) : String :=
  toString seconds ++ "s"

/-- A track DAO that knows the tracks of id below 3. -/
def AnalysisFeature.sampleGetTrack (trackId : Nat) : Option Nat :=
  if trackId < 3 then some trackId else none

/-- An analysis feature without analyzer queue whose settings store holds `0`
for the BPM detection and whose saved value is a stale `5`. -/
def AnalysisFeature.sample : AnalysisFeature Nat :=
  { m_pConfig := fun key =>
      if key = AnalysisFeature.bpmDetectionEnabledKey then some (ConfigValue.int 0) else none
    m_pAnalyzerQueue := none
    m_iOldBpmEnabled := 5
    m_analysisTitleName := "Analyze"
    m_Title := "Analyze"
    emitted := [] }

/-- A sound source as the constructor leaves it, before `tryOpen`. -/
def SoundSourceModPlug.closed : SoundSourceModPlug :=
  { m_sampleBuf := [], m_seekPos := 0, channelCount := 0, frameRate := 0, frameCount := 0 }

/-- Five decoded samples: two stereo frames and one sample left over. -/
def SoundSourceModPlug.oddSamples : List Int := [10, -20, 30, -40, 50]

/-!
Theorems
-/

section DialogTheorems

open DlgAutoDJ

theorem setCheckedAutoDJ_same {P : Type}
    (toggled : Bool → DlgAutoDJ × P → Option (DlgAutoDJ × P)) (v : Bool) (d : DlgAutoDJ)
    (p : P) (h : d.pushButtonAutoDJ.checked = v) :
    setCheckedAutoDJ toggled v (d, p) = some (d, p) := by
  simp [setCheckedAutoDJ, QPushButton.setChecked, h]

theorem setCheckedAutoDJ_change {P : Type}
    (toggled : Bool → DlgAutoDJ × P → Option (DlgAutoDJ × P)) (v : Bool) (d : DlgAutoDJ)
    (p : P) (h : d.pushButtonAutoDJ.checked ≠ v) :
    setCheckedAutoDJ toggled v (d, p) =
      toggled v ({ d with pushButtonAutoDJ := { d.pushButtonAutoDJ with checked := v } }, p) := by
  simp [setCheckedAutoDJ, QPushButton.setChecked, h]

/-- On a button that is not pushed the slot does not re-enter: the call is
logged, a refusal adds one warning, and the button is left as it was. -/
theorem toggleAutoDJButton_unchecked {P : Type} (f : P → Bool → AutoDJError × P)
    (fuel : Nat) (enable : Bool) (d : DlgAutoDJ) (p : P)
    (h : d.pushButtonAutoDJ.checked = false) :
    ∃ d', toggleAutoDJButton f (fuel + 1) enable (d, p) = some (d', (f p enable).2) ∧
      d'.pushButtonAutoDJ = d.pushButtonAutoDJ ∧
      d'.calls = d.calls ++ [Call.toggleAutoDJ enable] ∧
      (((f p enable).1 = AutoDJError.ADJ_BOTH_DECKS_PLAYING ∨
          (f p enable).1 = AutoDJError.ADJ_DECKS_3_4_PLAYING) →
        ∃ text, d'.warnings = d.warnings ++ [⟨"Auto DJ", text⟩]) ∧
      (((f p enable).1 ≠ AutoDJError.ADJ_BOTH_DECKS_PLAYING ∧
          (f p enable).1 ≠ AutoDJError.ADJ_DECKS_3_4_PLAYING) →
        d'.warnings = d.warnings) := by
  unfold toggleAutoDJButton
  cases herr : (f p enable).1 <;>
    simp [setCheckedAutoDJ_same, h, warning]

/-- C1: whatever `enable` is and whatever state the processor is in, two levels
of fuel are enough for `toggleAutoDJButton` to return (the error is a value,
nothing is thrown). If the processor's `toggleAutoDJ` returns
`ADJ_BOTH_DECKS_PLAYING` or `ADJ_DECKS_3_4_PLAYING`, a warning titled "Auto DJ"
is added to the warnings shown (followed by whatever the re-entry through the
`toggled` signal shows) and the enable button ends up unchecked; for `ADJ_OK`
and every other result no warning is shown, the enable button is left exactly as
it was, and only the call is logged. -/
theorem toggleAutoDJButton_error_handling {P : Type} (f : P → Bool → AutoDJError × P)
    (fuel : Nat) (enable : Bool) (d : DlgAutoDJ) (p : P) :
    ∃ d' p', toggleAutoDJButton f (fuel + 2) enable (d, p) = some (d', p') ∧
      (((f p enable).1 = AutoDJError.ADJ_BOTH_DECKS_PLAYING ∨
          (f p enable).1 = AutoDJError.ADJ_DECKS_3_4_PLAYING) →
        (∃ text rest, d'.warnings = d.warnings ++ ⟨"Auto DJ", text⟩ :: rest) ∧
        d'.pushButtonAutoDJ.checked = false) ∧
      (((f p enable).1 ≠ AutoDJError.ADJ_BOTH_DECKS_PLAYING ∧
          (f p enable).1 ≠ AutoDJError.ADJ_DECKS_3_4_PLAYING) →
        d'.warnings = d.warnings ∧
        d'.pushButtonAutoDJ = d.pushButtonAutoDJ ∧
        d' = { d with calls := d.calls ++ [Call.toggleAutoDJ enable] } ∧
        p' = (f p enable).2) := by
  -- the refused case: a warning, then `setChecked(false)`
  have refused : ∀ text : String,
      ∃ d' p', setCheckedAutoDJ (toggleAutoDJButton f (fuel + 1)) false
          (({ d with calls := d.calls ++ [Call.toggleAutoDJ enable] } : DlgAutoDJ).warning
            "Auto DJ" text, (f p enable).2) = some (d', p') ∧
        (∃ text rest, d'.warnings = d.warnings ++ ⟨"Auto DJ", text⟩ :: rest) ∧
        d'.pushButtonAutoDJ.checked = false := by
    intro text
    cases hc : d.pushButtonAutoDJ.checked with
    | false =>
      refine ⟨_, _, setCheckedAutoDJ_same _ false _ _ hc, ⟨text, [], rfl⟩, hc⟩
    | true =>
      rw [setCheckedAutoDJ_change _ false _ _ (by simp [warning, hc])]
      obtain ⟨d', hd', hbtn, _, hw1, hw2⟩ := toggleAutoDJButton_unchecked f fuel false
        ({ (({ d with calls := d.calls ++ [Call.toggleAutoDJ enable] } : DlgAutoDJ).warning
            "Auto DJ" text) with
          pushButtonAutoDJ := { d.pushButtonAutoDJ with checked := false } })
        (f p enable).2 rfl
      refine ⟨d', _, hd', ?_, by rw [hbtn]⟩
      by_cases hr : ((f (f p enable).2 false).1 = AutoDJError.ADJ_BOTH_DECKS_PLAYING ∨
          (f (f p enable).2 false).1 = AutoDJError.ADJ_DECKS_3_4_PLAYING)
      · obtain ⟨text2, h2⟩ := hw1 hr
        exact ⟨text, [⟨"Auto DJ", text2⟩], by rw [h2]; simp [warning]⟩
      · have h2 := hw2 (by tauto)
        exact ⟨text, [], by rw [h2]; simp [warning]⟩
  cases herr : (f p enable).1 with
  | ADJ_BOTH_DECKS_PLAYING =>
    obtain ⟨d', p', h1, h2, h3⟩ := refused "One deck must be stopped to enable Auto DJ mode."
    refine ⟨d', p', ?_, fun _ => ⟨h2, h3⟩, fun h => absurd rfl h.1⟩
    rw [← h1, toggleAutoDJButton]
    simp [herr]
  | ADJ_DECKS_3_4_PLAYING =>
    obtain ⟨d', p', h1, h2, h3⟩ :=
      refused "Decks 3 and 4 must be stopped to enable Auto DJ mode."
    refine ⟨d', p', ?_, fun _ => ⟨h2, h3⟩, fun h => absurd rfl h.2⟩
    rw [← h1, toggleAutoDJButton]
    simp [herr]
  | ADJ_OK =>
    refine ⟨{ d with calls := d.calls ++ [Call.toggleAutoDJ enable] }, (f p enable).2,
      ?_, fun h => ?_, fun _ => ⟨rfl, rfl, rfl, rfl⟩⟩
    · rw [toggleAutoDJButton]
      simp [herr]
    · rcases h with h | h <;> cases h
  | other code =>
    refine ⟨{ d with calls := d.calls ++ [Call.toggleAutoDJ enable] }, (f p enable).2,
      ?_, fun h => ?_, fun _ => ⟨rfl, rfl, rfl, rfl⟩⟩
    · rw [toggleAutoDJButton]
      simp [herr]
    · rcases h with h | h <;> cases h

/-- Witness for C1: on the sample dialog, whose enable button is pushed, a
refused enable shows a warning and releases the button, and an accepted disable
shows nothing and leaves the button pushed. -/
theorem toggleAutoDJButton_error_handling_witness :
    (∃ d' p', toggleAutoDJButton bothDecksPlaying 2 true
        (DlgAutoDJ.sample, AutoDJState.ADJ_IDLE) = some (d', p') ∧
      d'.warnings ≠ [] ∧ d'.pushButtonAutoDJ.checked = false) ∧
    (∃ d' p', toggleAutoDJButton bothDecksPlaying 2 false
        (DlgAutoDJ.sample, AutoDJState.ADJ_IDLE) = some (d', p') ∧
      d'.warnings = [] ∧ d'.pushButtonAutoDJ.checked = true) := by
  obtain ⟨d1, p1, h1, hE, _⟩ := toggleAutoDJButton_error_handling bothDecksPlaying 0 true
    DlgAutoDJ.sample AutoDJState.ADJ_IDLE
  obtain ⟨d2, p2, h2, _, hO⟩ := toggleAutoDJButton_error_handling bothDecksPlaying 0 false
    DlgAutoDJ.sample AutoDJState.ADJ_IDLE
  obtain ⟨⟨text, rest, hw⟩, hc⟩ := hE (Or.inl rfl)
  obtain ⟨hw2, hb2, _, _⟩ := hO ⟨by decide, by decide⟩
  refine ⟨⟨d1, p1, h1, ?_, hc⟩, ⟨d2, p2, h2, ?_, ?_⟩⟩
  · rw [hw]; simp
  · rw [hw2]; rfl
  · rw [hb2]; rfl

/-- The call `pushButtonAutoDJ->setChecked(v)` returns when the slot it may run
has two levels of fuel. Unchecking leaves the button unchecked; checking leaves
it checked exactly when it was checked before or the processor accepts the
enable that the `toggled` signal asks for. -/
theorem setCheckedAutoDJ_total {P : Type} (f : P → Bool → AutoDJError × P) (fuel : Nat)
    (v : Bool) (d : DlgAutoDJ) (p : P) :
    ∃ d' p', setCheckedAutoDJ (toggleAutoDJButton f (fuel + 2)) v (d, p) = some (d', p') ∧
      (v = false → d'.pushButtonAutoDJ.checked = false) ∧
      (v = true →
        (d'.pushButtonAutoDJ.checked = true ↔
          d.pushButtonAutoDJ.checked = true ∨
          ((f p true).1 ≠ AutoDJError.ADJ_BOTH_DECKS_PLAYING ∧
            (f p true).1 ≠ AutoDJError.ADJ_DECKS_3_4_PLAYING))) := by
  by_cases hc : d.pushButtonAutoDJ.checked = v
  · refine ⟨d, p, setCheckedAutoDJ_same _ v d p hc, fun hv => by rw [hc, hv], fun hv => ?_⟩
    rw [hc, hv]
    simp
  · rw [setCheckedAutoDJ_change _ v d p hc]
    obtain ⟨d', p', h, hE, hO⟩ := toggleAutoDJButton_error_handling f fuel v
      { d with pushButtonAutoDJ := { d.pushButtonAutoDJ with checked := v } } p
    refine ⟨d', p', h, fun hv => ?_, fun hv => ?_⟩
    · by_cases hr : ((f p v).1 = AutoDJError.ADJ_BOTH_DECKS_PLAYING ∨
          (f p v).1 = AutoDJError.ADJ_DECKS_3_4_PLAYING)
      · exact (hE hr).2
      · have := (hO (by tauto)).2.1
        rw [this, hv]
    · subst hv
      have hd : d.pushButtonAutoDJ.checked = false := by
        cases hb : d.pushButtonAutoDJ.checked with
        | false => rfl
        | true => exact absurd hb hc
      by_cases hr : ((f p true).1 = AutoDJError.ADJ_BOTH_DECKS_PLAYING ∨
          (f p true).1 = AutoDJError.ADJ_DECKS_3_4_PLAYING)
      · rw [(hE hr).2, hd]
        simp
        tauto
      · have hb := (hO (by tauto)).2.1
        rw [hb, hd]
        simp
        tauto

/-- C2: for every AutoDJ state `s`, every dialog and every processor,
`autoDJStateChanged s` returns (two levels of fuel are enough for the slot its
`setChecked` may run), and afterwards the Fade Now button is enabled if and only
if `s` is `ADJ_IDLE`; in particular it is disabled in `ADJ_DISABLED`,
`ADJ_LEFT_FADING`, `ADJ_RIGHT_FADING` and `ADJ_ENABLE_P1LOADED`. -/
theorem autoDJStateChanged_fadeNow_enabled_iff_idle {P : Type}
    (f : P → Bool → AutoDJError × P) (fuel : Nat) (s : AutoDJState) (d : DlgAutoDJ) (p : P) :
    ∃ d' p', autoDJStateChanged f (fuel + 2) s (d, p) = some (d', p') ∧
      (d'.pushButtonFadeNow.enabled = true ↔ s = AutoDJState.ADJ_IDLE) := by
  obtain ⟨d0, p0, h0, _, _⟩ := setCheckedAutoDJ_total f fuel false d p
  obtain ⟨d1, p1, h1, _, _⟩ := setCheckedAutoDJ_total f fuel true d p
  cases s <;>
    simp [autoDJStateChanged, h0, h1, setEnableButtonFace, QPushButton.setEnabled] <;>
    split <;> simp

/-- What `autoDJStateChanged` leaves on the enable and Skip buttons: Skip is
enabled exactly when the state is not `ADJ_DISABLED`; in `ADJ_DISABLED` the
enable button is unchecked and Fade Now disabled; in every other state the
enable button is checked exactly when it was checked before or the processor
accepts the enable that the `toggled` signal of `setChecked(true)` asks for. -/
theorem autoDJStateChanged_buttons {P : Type}
    (f : P → Bool → AutoDJError × P) (fuel : Nat) (s : AutoDJState) (d : DlgAutoDJ) (p : P) :
    ∃ d' p', autoDJStateChanged f (fuel + 2) s (d, p) = some (d', p') ∧
      (d'.pushButtonSkipNext.enabled = true ↔ s ≠ AutoDJState.ADJ_DISABLED) ∧
      (s = AutoDJState.ADJ_DISABLED →
        d'.pushButtonAutoDJ.checked = false ∧ d'.pushButtonFadeNow.enabled = false) ∧
      (s ≠ AutoDJState.ADJ_DISABLED →
        (d'.pushButtonAutoDJ.checked = true ↔
          d.pushButtonAutoDJ.checked = true ∨
          ((f p true).1 ≠ AutoDJError.ADJ_BOTH_DECKS_PLAYING ∧
            (f p true).1 ≠ AutoDJError.ADJ_DECKS_3_4_PLAYING))) := by
  obtain ⟨d0, p0, h0, hc0, _⟩ := setCheckedAutoDJ_total f fuel false d p
  obtain ⟨d1, p1, h1, _, hc1⟩ := setCheckedAutoDJ_total f fuel true d p
  have hc0 := hc0 rfl
  have hc1 := hc1 rfl
  cases s <;>
    simp [autoDJStateChanged, h0, h1, setEnableButtonFace, QPushButton.setEnabled,
      QPushButton.setToolTip, QPushButton.setText, QPushButton.setIcon] <;>
    split <;> simp [hc0, hc1]

/-- C9, at the input where the code departs from it: the dialog is created while
a fade is running, so the state is `ADJ_LEFT_FADING` and the enable button is not
yet pushed, and both decks are playing. `setChecked(true)` runs
`toggleAutoDJButton(true)`, the processor refuses, a warning is shown and the
button is released, which runs `toggleAutoDJButton(false)` and disables AutoDJ.
The enable button ends up unchecked although the state is not `ADJ_DISABLED`;
Skip is enabled and Fade Now disabled, as the claim says. -/
theorem autoDJStateChanged_unchecked_while_fading :
    (autoDJStateChanged bothDecksPlaying 2 AutoDJState.ADJ_LEFT_FADING
        (DlgAutoDJ.fresh, AutoDJState.ADJ_LEFT_FADING)).map
      (fun r => (r.1.pushButtonAutoDJ.checked, r.1.pushButtonSkipNext.enabled,
        r.1.pushButtonFadeNow.enabled, r.1.warnings, r.1.calls, r.2)) =
    some (false, true, false,
      [⟨"Auto DJ", "One deck must be stopped to enable Auto DJ mode."⟩],
      [Call.toggleAutoDJ true, Call.toggleAutoDJ false], AutoDJState.ADJ_DISABLED) := by
  rfl

/-- A processor that refuses both the enable and the disable that the released
button asks for: the slot runs twice, two calls reach the processor and two
warnings are shown. -/
theorem toggleAutoDJButton_refused_twice :
    (toggleAutoDJButton alwaysRefusing 2 true (DlgAutoDJ.sample, AutoDJState.ADJ_IDLE)).map
      (fun r => (r.1.pushButtonAutoDJ.checked, r.1.warnings.length, r.1.calls)) =
    some (false, 2, [Call.toggleAutoDJ true, Call.toggleAutoDJ false]) := by
  rfl

end DialogTheorems

section SchedulerTheorems

open Scheduler

/-- C3: enabling while the decks of indices 0 and 1 are both playing returns
`BothDecksPlaying` and leaves the whole scheduler state as it was, whatever the
queue, the transition mode, the transition time and the other decks are; so a
scheduler that was `Disabled` is still `Disabled`. -/
theorem enable_both_decks_playing (s : State)
    (h0 : deckPlaying s 0 = true) (h1 : deckPlaying s 1 = true) :
    (enable true s).1 = EnableResult.BothDecksPlaying ∧
    (enable true s).2 = s ∧
    (s.state = AutoDJState.ADJ_DISABLED →
      (enable true s).2.state = AutoDJState.ADJ_DISABLED) := by
  have h : enable true s = (EnableResult.BothDecksPlaying, s) := by
    simp [enable, h0, h1]
  rw [h]
  exact ⟨rfl, rfl, fun hs => hs⟩

/-- Witness for C3: a disabled scheduler with decks 0, 1 and 2 playing. -/
theorem enable_both_decks_playing_witness :
    (enable true State.allPlaying).1 = EnableResult.BothDecksPlaying ∧
    (enable true State.allPlaying).2 = State.allPlaying ∧
    (enable true State.allPlaying).2.state = AutoDJState.ADJ_DISABLED :=
  have h := enable_both_decks_playing State.allPlaying (by decide) (by decide)
  ⟨h.1, h.2.1, h.2.2 rfl⟩

/-- C4: for every track and every configured transition time with
`0 ≤ transitionTime < duration`, the `FixedFullTrack` strategy returns the
trigger `duration - transitionTime` and the fade duration `transitionTime`; the
trigger lies in `(0, duration]`, so the clamp to `[0, duration]` keeps it, and
the fade begins `transitionTime` seconds before the end of the track. -/
theorem fixedFullTrack_trigger_and_fade (track incoming : Track) (trailingSilence : ℚ)
    (transitionTime : Int) (h0 : 0 ≤ transitionTime)
    (h1 : (transitionTime : ℚ) < track.duration) :
    (strategy TransitionMode.FixedFullTrack track incoming trailingSilence
        transitionTime).trigger = track.duration - transitionTime ∧
    (strategy TransitionMode.FixedFullTrack track incoming trailingSilence
        transitionTime).fadeDuration = transitionTime ∧
    clampTrigger track.duration
      (strategy TransitionMode.FixedFullTrack track incoming trailingSilence
        transitionTime).trigger = track.duration - transitionTime ∧
    (strategy TransitionMode.FixedFullTrack track incoming trailingSilence
        transitionTime).trigger + transitionTime = track.duration := by
  have hq : (0 : ℚ) ≤ (transitionTime : ℚ) := by exact_mod_cast h0
  refine ⟨rfl, rfl, ?_, ?_⟩
  · simp only [strategy, fixedFullTrack, clampTrigger]
    rw [min_eq_right (by linarith), max_eq_right (by linarith)]
  · simp only [strategy, fixedFullTrack]
    ring

/-- Witness for C4: a track of 180 seconds and a transition time of 10 seconds
give the trigger 170 and the fade duration 10. -/
theorem fixedFullTrack_trigger_and_fade_witness :
    (strategy TransitionMode.FixedFullTrack Track.plain Track.cued 0 10).trigger = 170 ∧
    (strategy TransitionMode.FixedFullTrack Track.plain Track.cued 0 10).fadeDuration = 10 := by
  have h := fixedFullTrack_trigger_and_fade Track.plain Track.cued 0 10 (by decide)
    (by norm_num [Track.plain])
  refine ⟨?_, ?_⟩
  · rw [h.1]; norm_num [Track.plain]
  · rw [h.2.1]; norm_num

/-- C5: for every track whose intro and outro cues are unset, every incoming
track and every configured transition time, `FullIntroOutro` and
`FadeAtOutroStart` return the same trigger and the same fade duration as
`FixedFullTrack` does with that transition time. -/
theorem unset_cues_fall_back_to_fixedFullTrack (track incoming : Track)
    (trailingSilence : ℚ) (transitionTime : Int)
    (hIntroStart : track.introStart = none) (hIntroEnd : track.introEnd = none)
    (hOutroStart : track.outroStart = none) (hOutroEnd : track.outroEnd = none) :
    strategy TransitionMode.FullIntroOutro track incoming trailingSilence transitionTime =
      strategy TransitionMode.FixedFullTrack track incoming trailingSilence transitionTime ∧
    strategy TransitionMode.FadeAtOutroStart track incoming trailingSilence transitionTime =
      strategy TransitionMode.FixedFullTrack track incoming trailingSilence transitionTime := by
  have _ := hIntroStart
  have _ := hIntroEnd
  constructor
  · simp [strategy, fullIntroOutro, fixedFullTrack, outroLength, hOutroStart, hOutroEnd]
  · simp [strategy, fadeAtOutroStart, fixedFullTrack, outroLength, hOutroStart, hOutroEnd]

/-- Witness for C5: the track without cue points, followed by a track with cue
points, at a transition time of 10 seconds. -/
theorem unset_cues_fall_back_to_fixedFullTrack_witness :
    strategy TransitionMode.FullIntroOutro Track.plain Track.cued 0 10 =
      strategy TransitionMode.FixedFullTrack Track.plain Track.cued 0 10 ∧
    strategy TransitionMode.FadeAtOutroStart Track.plain Track.cued 0 10 =
      strategy TransitionMode.FixedFullTrack Track.plain Track.cued 0 10 :=
  unset_cues_fall_back_to_fixedFullTrack Track.plain Track.cued 0 10 rfl rfl rfl rfl

end SchedulerTheorems

section SyncTheorems

open DlgAutoDJ TransitionTimeSync

theorem setValue_of_mem_range (b : QSpinBox) (t : Int)
    (hmin : b.minimum ≤ t) (hmax : t ≤ b.maximum) :
    b.setValue t = { b with value := t } := by
  simp [QSpinBox.setValue, min_eq_right hmax, max_eq_right hmin]

theorem transitionTimeChanged_fixed (d : DlgAutoDJ) (t : Int)
    (hmin : d.spinBoxTransition.minimum ≤ t) (hmax : t ≤ d.spinBoxTransition.maximum)
    (hval : d.spinBoxTransition.value = t) :
    transitionTimeChanged t d = d := by
  unfold transitionTimeChanged
  rw [setValue_of_mem_range _ t hmin hmax, ← hval]

theorem setTransitionTime_fixed (fuel : Nat) (d : DlgAutoDJ) (p t : Int)
    (hmin : d.spinBoxTransition.minimum ≤ t) (hmax : t ≤ d.spinBoxTransition.maximum)
    (hval : d.spinBoxTransition.value = t) :
    setTransitionTime (fuel + 1) t ⟨d, p⟩ = some ⟨d, t⟩ := by
  simp [setTransitionTime, transitionTimeChanged_fixed d t hmin hmax hval]

theorem setTransitionTime_syncs (fuel : Nat) (d : DlgAutoDJ) (p t : Int)
    (hmin : d.spinBoxTransition.minimum ≤ t) (hmax : t ≤ d.spinBoxTransition.maximum) :
    ∃ s, setTransitionTime (fuel + 2) t ⟨d, p⟩ = some s ∧
      s.dlg.spinBoxTransition.value = t ∧ s.transitionTime = t := by
  by_cases hval : d.spinBoxTransition.value = t
  · exact ⟨⟨d, t⟩, setTransitionTime_fixed (fuel + 1) d p t hmin hmax hval, hval, rfl⟩
  · have hstep : setTransitionTime (fuel + 2) t ⟨d, p⟩ =
        setTransitionTime (fuel + 1) t
          ⟨transitionSliderChanged t (transitionTimeChanged t d), t⟩ := by
      have hne : ¬ t = d.spinBoxTransition.value := fun h => hval h.symm
      conv_lhs => rw [show fuel + 2 = (fuel + 1) + 1 from rfl, setTransitionTime]
      simp [transitionTimeChanged, setValue_of_mem_range _ t hmin hmax, hne]
    rw [hstep]
    refine ⟨_, setTransitionTime_fixed fuel _ t t ?_ ?_ ?_, ?_, rfl⟩
    all_goals
      simp [transitionSliderChanged, transitionTimeChanged,
        setValue_of_mem_range _ t hmin hmax, hmin, hmax]

/-- C6: for a transition time `t` within the range of the spin box:
`transitionSliderChanged v` calls the processor's `setTransitionTime` with
exactly `v`, for every `v`; `transitionTimeChanged t` leaves the spin box showing
`t`; with a processor that stores the value and echoes it, a change to `t` coming
from the processor, and a change of the spin box to `t` made by the user, both
end (the signal chain is at most two calls deep) with the spin box and the
processor holding `t`; and echoing the value the spin box already shows changes
nothing in the dialog. -/
theorem transition_time_stays_in_sync (fuel : Nat) (d : DlgAutoDJ) (p t : Int)
    (hmin : d.spinBoxTransition.minimum ≤ t) (hmax : t ≤ d.spinBoxTransition.maximum) :
    (∀ v : Int, (transitionSliderChanged v d).calls = d.calls ++ [Call.setTransitionTime v]) ∧
    (transitionTimeChanged t d).spinBoxTransition.value = t ∧
    (∃ s, setTransitionTime (fuel + 2) t ⟨d, p⟩ = some s ∧
      s.dlg.spinBoxTransition.value = t ∧ s.transitionTime = t) ∧
    (d.spinBoxTransition.value ≠ t →
      ∃ s, spinBoxEdited (fuel + 2) t ⟨d, p⟩ = some s ∧
        s.dlg.spinBoxTransition.value = t ∧ s.transitionTime = t) ∧
    (d.spinBoxTransition.value = t →
      transitionTimeChanged t d = d ∧
      setTransitionTime (fuel + 1) t ⟨d, p⟩ = some ⟨d, t⟩) := by
  refine ⟨fun v => rfl, ?_, setTransitionTime_syncs fuel d p t hmin hmax, ?_, ?_⟩
  · simp [transitionTimeChanged, setValue_of_mem_range _ t hmin hmax]
  · intro hval
    have hne : ¬ t = d.spinBoxTransition.value := fun h => hval h.symm
    have hstep : spinBoxEdited (fuel + 2) t ⟨d, p⟩ =
        setTransitionTime (fuel + 2) t
          ⟨transitionSliderChanged t { d with spinBoxTransition :=
            { d.spinBoxTransition with value := t } }, p⟩ := by
      simp [spinBoxEdited, setValue_of_mem_range _ t hmin hmax, hne]
    rw [hstep]
    exact setTransitionTime_syncs fuel _ p t hmin hmax
  · intro hval
    exact ⟨transitionTimeChanged_fixed d t hmin hmax hval,
      setTransitionTime_fixed fuel d p t hmin hmax hval⟩

/-- Witness for C6: the sample dialog shows 10 and ranges over `[-9, 90]`; a
processor holding 10 changes to 25, and the user changes the spin box to 25. -/
theorem transition_time_stays_in_sync_witness :
    (transitionTimeChanged 25 DlgAutoDJ.sample).spinBoxTransition.value = 25 ∧
    (∃ s, setTransitionTime 2 25 ⟨DlgAutoDJ.sample, 10⟩ = some s ∧
      s.dlg.spinBoxTransition.value = 25 ∧ s.transitionTime = 25) ∧
    (∃ s, spinBoxEdited 2 25 ⟨DlgAutoDJ.sample, 10⟩ = some s ∧
      s.dlg.spinBoxTransition.value = 25 ∧ s.transitionTime = 25) :=
  have h := transition_time_stays_in_sync 0 DlgAutoDJ.sample 10 25 (by decide) (by decide)
  ⟨h.2.1, h.2.2.1, h.2.2.2.1 (by decide)⟩

end SyncTheorems

section ConfigurationTheorems

open DlgAutoDJ

theorem selectionDuration_foldl_eq {Row Trk D : Type} [AddMonoid D]
    (getTrack : Row → Option Trk) (getDuration : Trk → D) (indices : List Row) (acc : D) :
    indices.foldl
        (fun duration index =>
          match getTrack index with
          | some pTrack => duration + getDuration pTrack
          | none => duration)
        acc =
      acc + (indices.map (fun index => ((getTrack index).map getDuration).getD 0)).sum := by
  induction indices generalizing acc with
  | nil => simp
  | cons index rest ih =>
    rw [List.foldl_cons, ih]
    cases h : getTrack index <;> simp [h, add_assoc]

/-- C7: the combobox the constructor builds holds exactly the four modes, in the
order `FullIntroOutro`, `FadeAtOutroStart`, `FixedFullTrack`, `FixedSkipSilence`;
for every index `i` in `0..3`, `slotTransitionModeChanged i` calls the
processor's `setTransitionMode` with the `i`-th mode of that list; and for every
mode `m` the index the constructor selects is `findData m`, lies in `0..3`, and
holds item data that converts back to `m`. -/
theorem fadeModeCombobox_round_trip (m : TransitionMode) (d : DlgAutoDJ) :
    (setupFadeModeCombobox m).items =
      [("Full Intro + Outro", TransitionMode.FullIntroOutro.toInt),
       ("Fade At Outro Start", TransitionMode.FadeAtOutroStart.toInt),
       ("Full Track", TransitionMode.FixedFullTrack.toInt),
       ("Skip Silence", TransitionMode.FixedSkipSilence.toInt)] ∧
    (∀ i : Fin 4,
      (slotTransitionModeChanged (i.val : Int)
          { d with fadeModeCombobox := setupFadeModeCombobox m }).calls =
        d.calls ++ [Call.setTransitionMode
          ([TransitionMode.FullIntroOutro, TransitionMode.FadeAtOutroStart,
            TransitionMode.FixedFullTrack, TransitionMode.FixedSkipSilence].get i).toInt]) ∧
    TransitionMode.ofInt m.toInt = some m ∧
    (setupFadeModeCombobox m).currentIndex =
      (setupFadeModeCombobox m).findData m.toInt ∧
    0 ≤ (setupFadeModeCombobox m).currentIndex ∧
    (setupFadeModeCombobox m).currentIndex < 4 ∧
    TransitionMode.ofInt (QVariant.toInt
      ((setupFadeModeCombobox m).itemData (setupFadeModeCombobox m).currentIndex)) =
      some m := by
  refine ⟨rfl, ?_, ?_, ?_, ?_, ?_, ?_⟩
  · intro i
    fin_cases i <;> rfl
  all_goals cases m <;> decide

/-- C8: for every dialog (hence every settings store) and every integer
`checkState`, after `slotRepeatPlaylistChanged checkState` the store maps the
key of group "[Auto DJ]" and name "Requeue" to the boolean `checkState ≠ 0`,
and every other key has the value it had before. -/
theorem slotRepeatPlaylistChanged_store (checkState : Int) (d : DlgAutoDJ) :
    (slotRepeatPlaylistChanged checkState d).m_pConfig ⟨"[Auto DJ]", "Requeue"⟩ =
      some (ConfigValue.bool (decide (checkState ≠ 0))) ∧
    ∀ key : ConfigKey, key ≠ ⟨"[Auto DJ]", "Requeue"⟩ →
      (slotRepeatPlaylistChanged checkState d).m_pConfig key = d.m_pConfig key := by
  have hcfg : (slotRepeatPlaylistChanged checkState d).m_pConfig =
      d.m_pConfig.setValue ⟨"[Auto DJ]", "Requeue"⟩
        (ConfigValue.bool (decide (checkState ≠ 0))) := by
    unfold slotRepeatPlaylistChanged
    simp only []
    split <;> split <;> rfl
  rw [hcfg]
  refine ⟨by simp [UserSettings.setValue], fun key hkey => ?_⟩
  simp [UserSettings.setValue, hkey]

/-- Witness for C8: on the sample dialog, check state 2 stores `true` under the
repeat key and leaves the key of the transition time without a value. -/
theorem slotRepeatPlaylistChanged_store_witness :
    (slotRepeatPlaylistChanged 2 DlgAutoDJ.sample).m_pConfig ⟨"[Auto DJ]", "Requeue"⟩ =
      some (ConfigValue.bool true) ∧
    (slotRepeatPlaylistChanged 2 DlgAutoDJ.sample).m_pConfig ⟨"[Auto DJ]", "Transition"⟩ =
      none :=
  have h := slotRepeatPlaylistChanged_store 2 DlgAutoDJ.sample
  ⟨h.1, h.2 ⟨"[Auto DJ]", "Transition"⟩ (by decide)⟩

/-- The loop of `updateSelectionInfo` adds, from left to right and starting from
zero, the durations of the tracks the selected rows resolve to; a row without a
track adds nothing. No law of addition is used, so this holds as well for the
`double` the code accumulates in. -/
theorem selectionDuration_eq_foldl {Row Trk D : Type} [Zero D] [Add D]
    (getTrack : Row → Option Trk) (getDuration : Trk → D) (indices : List Row) :
    selectionDuration getTrack getDuration indices =
      ((indices.filterMap getTrack).map getDuration).foldl (fun duration x => duration + x)
        0 := by
  unfold selectionDuration
  generalize (0 : D) = acc
  induction indices generalizing acc with
  | nil => rfl
  | cons index rest ih =>
    cases h : getTrack index with
    | none => simp only [List.foldl_cons, h, List.filterMap_cons_none h, ih]
    | some pTrack =>
      simp only [List.foldl_cons, h, List.filterMap_cons_some h, List.map_cons, ih]

/-- Where the durations form an additive monoid (exact arithmetic), the loop of
`updateSelectionInfo` yields the sum of one term for each selected row: the
duration of its track, or zero for a row without a track. -/
theorem selectionDuration_eq_sum {Row Trk D : Type} [AddMonoid D]
    (getTrack : Row → Option Trk) (getDuration : Trk → D) (indices : List Row) :
    selectionDuration getTrack getDuration indices =
      (indices.map (fun index => ((getTrack index).map getDuration).getD 0)).sum := by
  have h := selectionDuration_foldl_eq getTrack getDuration indices 0
  rw [zero_add] at h
  exact h

/-- The loop of `updateSelectionInfo` with the durations in binary64 floating
point, the `double` of the code: the result is the left-to-right accumulation
from `0.0`. -/
theorem selectionDuration_double {Row Trk : Type} (getTrack : Row → Option Trk)
    (getDuration : Trk → Float) (indices : List Row) :
    @selectionDuration Row Trk Float ⟨0.0⟩ ⟨Float.add⟩ getTrack getDuration indices =
      ((indices.filterMap getTrack).map getDuration).foldl Float.add 0.0 :=
  @selectionDuration_eq_foldl Row Trk Float ⟨0.0⟩ ⟨Float.add⟩ getTrack getDuration indices

/-- C10: for every list of selected rows, `updateSelectionInfo` makes the label
show, when the selection is not empty, `formatTime D` followed by " (N)" and
enables it, where `N` is the number of selected rows, rows without a track
included, and `D` is what adding the durations of the tracks of the selected
rows, in their order and starting from zero, gives (a row without a track adds
nothing); when the selection is empty the label text is empty and the label is
disabled. The durations only need a zero and an addition, as the `double` of the
code has. -/
theorem updateSelectionInfo_label {Row Trk D : Type} [Zero D] [Add D]
    (formatTime : D → String) (getTrack : Row → Option Trk) (getDuration : Trk → D)
    (indices : List Row) (d : DlgAutoDJ) :
    (indices ≠ [] →
      (updateSelectionInfo formatTime getTrack getDuration indices d).labelSelectionInfo.text =
        formatTime
          (((indices.filterMap getTrack).map getDuration).foldl
            (fun duration x => duration + x) 0) ++
          " (" ++ toString indices.length ++ ")" ∧
      (updateSelectionInfo formatTime getTrack getDuration indices d).labelSelectionInfo.enabled
        = true) ∧
    (indices = [] →
      (updateSelectionInfo formatTime getTrack getDuration indices d).labelSelectionInfo.text =
        "" ∧
      (updateSelectionInfo formatTime getTrack getDuration indices d).labelSelectionInfo.enabled
        = false) := by
  constructor
  · intro hne
    have hemp : indices.isEmpty = false := by
      cases indices with
      | nil => exact absurd rfl hne
      | cons _ _ => rfl
    have hsum := selectionDuration_eq_foldl getTrack getDuration indices
    simp only [updateSelectionInfo, hemp, hsum]
    simp [String.append_assoc]
  · intro hnil
    subst hnil
    simp [updateSelectionInfo]

/-- Witness for C10: rows 0, 3 and 2 are selected; row 3 has no track, so the
label shows 60 + 0 + 180 seconds and the count 3; with nothing selected the
label is empty and disabled. -/
theorem updateSelectionInfo_label_witness :
    ((updateSelectionInfo sampleFormatTime sampleGetTrack id [0, 3, 2]
        DlgAutoDJ.sample).labelSelectionInfo.text = "240s (3)" ∧
      (updateSelectionInfo sampleFormatTime sampleGetTrack id [0, 3, 2]
        DlgAutoDJ.sample).labelSelectionInfo.enabled = true) ∧
    ((updateSelectionInfo sampleFormatTime sampleGetTrack id ([] : List Nat)
        DlgAutoDJ.sample).labelSelectionInfo.text = "" ∧
      (updateSelectionInfo sampleFormatTime sampleGetTrack id ([] : List Nat)
        DlgAutoDJ.sample).labelSelectionInfo.enabled = false) := by
  have h1 := (updateSelectionInfo_label sampleFormatTime sampleGetTrack id [0, 3, 2]
    DlgAutoDJ.sample).1 (by decide)
  have h2 := (updateSelectionInfo_label sampleFormatTime sampleGetTrack id ([] : List Nat)
    DlgAutoDJ.sample).2 rfl
  refine ⟨⟨?_, h1.2⟩, h2⟩
  rw [h1.1]
  decide

end ConfigurationTheorems

section ScenarioTheorems

open Scheduler

/-- The scenario of section 8 for `FullIntroOutro`: duration 200, outro from 180
to 200, incoming intro of 10, transition time 15: the fade lasts 10 seconds and
begins at 190. -/
theorem fullIntroOutro_scenario :
    strategy TransitionMode.FullIntroOutro Track.cued Track.cued 0 15 = ⟨190, 10⟩ := by
  simp only [strategy, fullIntroOutro, outroLength, introLength, Track.cued]
  norm_num

/-- The scenario of section 8 for `FixedFullTrack`: duration 180 and transition
time -5 give the trigger 185, beyond the end of the track. -/
theorem fixedFullTrack_negative_scenario :
    (strategy TransitionMode.FixedFullTrack Track.plain Track.cued 0 (-5)).trigger = 185 := by
  simp only [strategy, fixedFullTrack, Track.plain]
  norm_num

end ScenarioTheorems

section AnalysisTheorems

open AnalysisFeature

theorem emit_fields {Trk : Type} (f : AnalysisFeature Trk) (signal : AnalysisSignal) :
    (f.emit signal).m_pConfig = f.m_pConfig ∧
    (f.emit signal).m_pAnalyzerQueue = f.m_pAnalyzerQueue ∧
    (f.emit signal).m_iOldBpmEnabled = f.m_iOldBpmEnabled :=
  ⟨rfl, rfl, rfl⟩

theorem setTitleProgress_fields {Trk : Type} (trackNum totalNum : Int)
    (f : AnalysisFeature Trk) :
    (setTitleProgress trackNum totalNum f).m_pConfig = f.m_pConfig ∧
    (setTitleProgress trackNum totalNum f).m_pAnalyzerQueue = f.m_pAnalyzerQueue ∧
    (setTitleProgress trackNum totalNum f).m_iOldBpmEnabled = f.m_iOldBpmEnabled :=
  ⟨rfl, rfl, rfl⟩

/-- The first `analyzeTracks`, with no queue: the setting is read into the saved
value, forced to `1`, and a queue exists afterwards. -/
theorem analyzeTracks_without_queue {TrackId Trk : Type} (getTrack : TrackId → Option Trk)
    (trackIds : List TrackId) (f : AnalysisFeature Trk) (hq : f.m_pAnalyzerQueue = none) :
    (analyzeTracks getTrack trackIds f).m_pConfig =
      f.m_pConfig.set bpmDetectionEnabledKey (ConfigValue.int 1) ∧
    (analyzeTracks getTrack trackIds f).m_iOldBpmEnabled =
      (f.m_pConfig.getValueString bpmDetectionEnabledKey).toInt ∧
    (analyzeTracks getTrack trackIds f).m_pAnalyzerQueue ≠ none := by
  unfold analyzeTracks
  simp only [hq]
  split <;> simp [emit, setTitleProgress]

/-- A later `analyzeTracks`, with a queue: neither the settings store nor the
saved value changes, and the queue stays. -/
theorem analyzeTracks_with_queue {TrackId Trk : Type} (getTrack : TrackId → Option Trk)
    (trackIds : List TrackId) (f : AnalysisFeature Trk) (hq : f.m_pAnalyzerQueue ≠ none) :
    (analyzeTracks getTrack trackIds f).m_pConfig = f.m_pConfig ∧
    (analyzeTracks getTrack trackIds f).m_iOldBpmEnabled = f.m_iOldBpmEnabled ∧
    (analyzeTracks getTrack trackIds f).m_pAnalyzerQueue ≠ none := by
  cases hqq : f.m_pAnalyzerQueue with
  | none => exact absurd hqq hq
  | some q =>
    unfold analyzeTracks
    simp only [hqq]
    split <;> simp [emit, setTitleProgress]

theorem analyzeTracksMany_with_queue {TrackId Trk : Type} (getTrack : TrackId → Option Trk)
    (calls : List (List TrackId)) (f : AnalysisFeature Trk) (hq : f.m_pAnalyzerQueue ≠ none) :
    (analyzeTracksMany getTrack calls f).m_pConfig = f.m_pConfig ∧
    (analyzeTracksMany getTrack calls f).m_iOldBpmEnabled = f.m_iOldBpmEnabled ∧
    (analyzeTracksMany getTrack calls f).m_pAnalyzerQueue ≠ none := by
  induction calls generalizing f with
  | nil => exact ⟨rfl, rfl, hq⟩
  | cons trackIds rest ih =>
    have h1 := analyzeTracks_with_queue getTrack trackIds f hq
    have h2 := ih (analyzeTracks getTrack trackIds f) h1.2.2
    simp only [analyzeTracksMany, List.foldl_cons] at h2 ⊢
    exact ⟨h2.1.trans h1.1, h2.2.1.trans h1.2.1, h2.2.2⟩

theorem cleanupAnalyzer_with_queue {Trk : Type} (f : AnalysisFeature Trk)
    (hq : f.m_pAnalyzerQueue ≠ none) :
    (cleanupAnalyzer f).m_pConfig =
      f.m_pConfig.set bpmDetectionEnabledKey (ConfigValue.int f.m_iOldBpmEnabled) ∧
    (cleanupAnalyzer f).m_pAnalyzerQueue = none := by
  cases hqq : f.m_pAnalyzerQueue with
  | none => exact absurd hqq hq
  | some q => simp [cleanupAnalyzer, setTitleDefault, emit, hqq]

theorem cleanupAnalyzer_without_queue {Trk : Type} (f : AnalysisFeature Trk)
    (hq : f.m_pAnalyzerQueue = none) :
    (cleanupAnalyzer f).m_pConfig = f.m_pConfig ∧
    (cleanupAnalyzer f).m_pAnalyzerQueue = none := by
  simp [cleanupAnalyzer, setTitleDefault, emit, hq]

/-- C11: starting without analyzer queue and with the setting
`[BPM]/BPMDetectionEnabled` holding the integer `v` (an `int`), after one or
more `analyzeTracks` calls the setting is `1`, the saved value is `v` and a queue
exists; after the following `cleanupAnalyzer` the setting is `v` again and the
queue is null; a further `cleanupAnalyzer` leaves the settings store as it
is. -/
theorem analyzeTracks_saves_and_restores_bpm {TrackId Trk : Type}
    (getTrack : TrackId → Option Trk) (calls : List (List TrackId))
    (f : AnalysisFeature Trk) (v : Int)
    (hq : f.m_pAnalyzerQueue = none)
    (hv : f.m_pConfig bpmDetectionEnabledKey = some (ConfigValue.int v))
    (hlo : -2147483648 ≤ v) (hhi : v ≤ 2147483647)
    (hn : calls ≠ []) :
    (analyzeTracksMany getTrack calls f).m_pConfig bpmDetectionEnabledKey =
      some (ConfigValue.int 1) ∧
    (analyzeTracksMany getTrack calls f).m_iOldBpmEnabled = v ∧
    (analyzeTracksMany getTrack calls f).m_pAnalyzerQueue ≠ none ∧
    (cleanupAnalyzer (analyzeTracksMany getTrack calls f)).m_pConfig bpmDetectionEnabledKey =
      some (ConfigValue.int v) ∧
    (cleanupAnalyzer (analyzeTracksMany getTrack calls f)).m_pAnalyzerQueue = none ∧
    (cleanupAnalyzer (cleanupAnalyzer (analyzeTracksMany getTrack calls f))).m_pConfig =
      (cleanupAnalyzer (analyzeTracksMany getTrack calls f)).m_pConfig := by
  cases calls with
  | nil => exact absurd rfl hn
  | cons trackIds rest =>
    have h1 := analyzeTracks_without_queue getTrack trackIds f hq
    have h2 := analyzeTracksMany_with_queue getTrack rest
      (analyzeTracks getTrack trackIds f) h1.2.2
    have hmany : analyzeTracksMany getTrack (trackIds :: rest) f =
        analyzeTracksMany getTrack rest (analyzeTracks getTrack trackIds f) := rfl
    rw [hmany]
    have hold : (analyzeTracksMany getTrack rest
        (analyzeTracks getTrack trackIds f)).m_iOldBpmEnabled = v := by
      rw [h2.2.1, h1.2.1]
      simp [UserSettings.getValueString, hv, ConfigValue.toInt, ConfigValue.intOrZero,
        hlo, hhi]
    have h3 := cleanupAnalyzer_with_queue _ h2.2.2
    have h4 := cleanupAnalyzer_without_queue _ h3.2
    refine ⟨?_, hold, h2.2.2, ?_, h3.2, h4.1⟩
    · rw [h2.1, h1.1]
      simp [UserSettings.set]
    · rw [h3.1, hold]
      simp [UserSettings.set]

/-- Witness for C11: the sample feature holds `0` for the BPM detection; three
calls follow, the last with no track ids. -/
theorem analyzeTracks_saves_and_restores_bpm_witness :
    (analyzeTracksMany sampleGetTrack [[1, 5], [2], []]
        AnalysisFeature.sample).m_pConfig bpmDetectionEnabledKey = some (ConfigValue.int 1) ∧
    (analyzeTracksMany sampleGetTrack [[1, 5], [2], []]
        AnalysisFeature.sample).m_iOldBpmEnabled = 0 ∧
    (cleanupAnalyzer (analyzeTracksMany sampleGetTrack [[1, 5], [2], []]
        AnalysisFeature.sample)).m_pConfig bpmDetectionEnabledKey = some (ConfigValue.int 0) :=
  have h := analyzeTracks_saves_and_restores_bpm sampleGetTrack [[1, 5], [2], []]
    AnalysisFeature.sample 0 rfl (by decide) (by decide) (by decide) (by decide)
  ⟨h.1, h.2.1, h.2.2.2.1⟩

end AnalysisTheorems

section ModPlugTheorems

open SoundSourceModPlug

theorem isValidFrameIndex_iff (s : SoundSourceModPlug) (frameIndex : Int) :
    s.isValidFrameIndex frameIndex = true ↔ 0 ≤ frameIndex ∧ frameIndex ≤ s.frameCount := by
  simp [isValidFrameIndex]

/-- After a successful `tryOpen` the buffer holds the decoded samples, the source
has two channels, and the frame count is half the number of samples, rounded
down. -/
theorem tryOpen_some (samples : List Int) (s : SoundSourceModPlug) :
    (tryOpen (some samples) s).1 = Result.OK ∧
    (tryOpen (some samples) s).2.m_sampleBuf = samples ∧
    (tryOpen (some samples) s).2.channelCount = 2 ∧
    (tryOpen (some samples) s).2.frameCount = (samples.length : Int) / 2 ∧
    (tryOpen (some samples) s).2.m_seekPos = 0 := by
  refine ⟨rfl, rfl, rfl, ?_, rfl⟩
  simp only [tryOpen, samples2frames, kChannelCount]
  exact Int.tdiv_eq_ediv (Int.natCast_nonneg _) (by decide)

theorem mem_readIndices (numberOfFrames : Int) (s : SoundSourceModPlug) (k : Int) :
    k ∈ readIndices numberOfFrames s ↔
      s.m_seekPos * s.channelCount ≤ k ∧
      k < s.m_seekPos * s.channelCount +
        ((min (s.frameCount - s.m_seekPos) numberOfFrames) * s.channelCount).toNat := by
  simp only [readIndices, frames2samples, List.mem_map, List.mem_range]
  generalize (min (s.frameCount - s.m_seekPos) numberOfFrames * s.channelCount).toNat = m
  generalize s.m_seekPos * s.channelCount = offset
  constructor
  · rintro ⟨j, hj, rfl⟩
    omega
  · rintro ⟨h1, h2⟩
    refine ⟨(k - offset).toNat, ?_, ?_⟩ <;> omega

/-- C12: for every source whose seek position `p` is a valid frame index
(`0 ≤ p ≤ F`, with `F` the frame count) and every `n ≥ 0`, `readSampleFrames`
returns `r = min (F - p) n` and moves the seek position to `p + r`; so
`0 ≤ r ≤ n`, `p + r ≤ F`, the seek position is again a valid frame index, and
`r = 0` exactly when `n = 0` or `p = F`. `seekSampleFrame i` returns `i` and
sets the seek position to `i`, for every valid `i`. -/
theorem readSampleFrames_returns_min {Sample : Type} (convert : Int → Sample)
    (s : SoundSourceModPlug) (n : Int)
    (hvalid : s.isValidFrameIndex s.m_seekPos = true) (hn : 0 ≤ n) :
    (readSampleFrames convert n s).readFrames = min (s.frameCount - s.m_seekPos) n ∧
    (readSampleFrames convert n s).source.m_seekPos =
      s.m_seekPos + (readSampleFrames convert n s).readFrames ∧
    (readSampleFrames convert n s).source.frameCount = s.frameCount ∧
    0 ≤ (readSampleFrames convert n s).readFrames ∧
    (readSampleFrames convert n s).readFrames ≤ n ∧
    s.m_seekPos + (readSampleFrames convert n s).readFrames ≤ s.frameCount ∧
    (readSampleFrames convert n s).source.isValidFrameIndex
      (readSampleFrames convert n s).source.m_seekPos = true ∧
    ((readSampleFrames convert n s).readFrames = 0 ↔ n = 0 ∨ s.m_seekPos = s.frameCount) ∧
    (∀ i : Int, s.isValidFrameIndex i = true →
      (seekSampleFrame i s).1 = i ∧ (seekSampleFrame i s).2.m_seekPos = i ∧
      (seekSampleFrame i s).2.isValidFrameIndex (seekSampleFrame i s).2.m_seekPos = true) := by
  have hv := (isValidFrameIndex_iff s s.m_seekPos).1 hvalid
  have hr : (readSampleFrames convert n s).readFrames = min (s.frameCount - s.m_seekPos) n :=
    rfl
  have hpos : (readSampleFrames convert n s).source.m_seekPos =
      s.m_seekPos + (readSampleFrames convert n s).readFrames := rfl
  have hF : (readSampleFrames convert n s).source.frameCount = s.frameCount := rfl
  have hmin1 : min (s.frameCount - s.m_seekPos) n ≤ s.frameCount - s.m_seekPos :=
    min_le_left _ _
  have hmin2 : min (s.frameCount - s.m_seekPos) n ≤ n := min_le_right _ _
  have hmin0 : 0 ≤ min (s.frameCount - s.m_seekPos) n := le_min (by omega) hn
  refine ⟨hr, hpos, hF, ?_, ?_, ?_, ?_, ?_, ?_⟩
  · rw [hr]; exact hmin0
  · rw [hr]; exact hmin2
  · rw [hr]; omega
  · rw [isValidFrameIndex_iff, hpos, hF, hr]
    omega
  · rw [hr]
    constructor
    · intro h0
      rcases min_choice (s.frameCount - s.m_seekPos) n with h | h
      · right; omega
      · left; omega
    · rintro (h | h)
      · subst h
        exact min_eq_right (by omega)
      · rw [h, sub_self]
        exact min_eq_left hn
  · intro i hi
    exact ⟨rfl, rfl, hi⟩

/-- Witness for C12: a source of two frames at seek position 1 is asked for five
frames: one frame is returned and the seek position moves to 2, the end. -/
theorem readSampleFrames_returns_min_witness :
    (readSampleFrames id 5
      (seekSampleFrame 1 (tryOpen (some oddSamples) closed).2).2).readFrames = 1 ∧
    (readSampleFrames id 5
      (seekSampleFrame 1 (tryOpen (some oddSamples) closed).2).2).source.m_seekPos = 2 ∧
    (seekSampleFrame 2 (tryOpen (some oddSamples) closed).2).1 = 2 := by
  have h := readSampleFrames_returns_min id
    (seekSampleFrame 1 (tryOpen (some oddSamples) closed).2).2 5 (by decide) (by decide)
  refine ⟨?_, ?_, (h.2.2.2.2.2.2.2.2 2 (by decide)).1⟩
  · rw [h.1]; decide
  · rw [h.2.1, h.1]; decide

/-- C13: after `tryOpen` has set the frame count to half the size of
`m_sampleBuf`, rounded down, and with the seek position at any valid frame index
`p`, for every `n ≥ 0` every index of `m_sampleBuf` that `readSampleFrames`
converts lies in `[2 * p, 2 * p + 2 * r)`, with `r` the frame count returned, and
is below the size of `m_sampleBuf`, also when that size is odd; so every sample
written to the output is the conversion of a sample of the buffer, and `2 * r`
samples are written. -/
theorem readSampleFrames_inside_sampleBuf {Sample : Type} (convert : Int → Sample)
    (samples : List Int) (closedSource : SoundSourceModPlug) (p n : Int)
    (hp : (tryOpen (some samples) closedSource).2.isValidFrameIndex p = true)
    (hn : 0 ≤ n) :
    (∀ k ∈ readIndices n (seekSampleFrame p (tryOpen (some samples) closedSource).2).2,
      2 * p ≤ k ∧
      k < 2 * p + 2 * (readSampleFrames convert n
        (seekSampleFrame p (tryOpen (some samples) closedSource).2).2).readFrames ∧
      0 ≤ k ∧ k < samples.length ∧
      ∃ sample, sampleAt samples k = some sample) ∧
    (∀ x ∈ (readSampleFrames convert n
        (seekSampleFrame p (tryOpen (some samples) closedSource).2).2).sampleBuffer,
      ∃ sample ∈ samples, x = some (convert sample)) ∧
    ((readSampleFrames convert n
        (seekSampleFrame p (tryOpen (some samples) closedSource).2).2).sampleBuffer.length
        : Int) =
      2 * (readSampleFrames convert n
        (seekSampleFrame p (tryOpen (some samples) closedSource).2).2).readFrames := by
  obtain ⟨_, hbuf, hch, hF, _⟩ := tryOpen_some samples closedSource
  have hv := (isValidFrameIndex_iff _ p).1 hp
  rw [hF] at hv
  generalize hs : (seekSampleFrame p (tryOpen (some samples) closedSource).2).2 = s
  have hsbuf : s.m_sampleBuf = samples := by rw [← hs]; exact hbuf
  have hsch : s.channelCount = 2 := by rw [← hs]; exact hch
  have hsF : s.frameCount = (samples.length : Int) / 2 := by rw [← hs]; exact hF
  have hsp : s.m_seekPos = p := by rw [← hs]; rfl
  have hr : (readSampleFrames convert n s).readFrames = min (s.frameCount - s.m_seekPos) n :=
    rfl
  have hmin1 : min (s.frameCount - s.m_seekPos) n ≤ s.frameCount - s.m_seekPos :=
    min_le_left _ _
  have hmin0 : 0 ≤ min (s.frameCount - s.m_seekPos) n := le_min (by omega) hn
  have hidx : ∀ k ∈ readIndices n s,
      2 * p ≤ k ∧ k < 2 * p + 2 * (readSampleFrames convert n s).readFrames ∧
      0 ≤ k ∧ k < samples.length := by
    intro k hk
    rw [mem_readIndices, hsch, hsp] at hk
    rw [hr, hsp]
    rw [hsp] at hmin1 hmin0
    omega
  have hat : ∀ k ∈ readIndices n s, ∃ sample, sample ∈ samples ∧
      sampleAt samples k = some sample := by
    intro k hk
    obtain ⟨_, _, h0, hlt⟩ := hidx k hk
    have hlt2 : k.toNat < samples.length := by omega
    refine ⟨samples.get ⟨k.toNat, hlt2⟩, List.get_mem _ _ _, ?_⟩
    simp [sampleAt, h0, List.get?_eq_get hlt2]
  refine ⟨?_, ?_, ?_⟩
  · intro k hk
    obtain ⟨h1, h2, h3, h4⟩ := hidx k hk
    obtain ⟨sample, _, hsample⟩ := hat k hk
    exact ⟨h1, h2, h3, h4, sample, hsample⟩
  · intro x hx
    simp only [readSampleFrames, List.mem_map] at hx
    obtain ⟨k, hk, rfl⟩ := hx
    obtain ⟨sample, hmem, hsample⟩ := hat k hk
    refine ⟨sample, hmem, ?_⟩
    rw [hsbuf, hsample]
    rfl
  · simp only [readSampleFrames, readIndices, frames2samples, List.length_map,
      List.length_range, hsch]
    rw [hsp] at hmin0
    rw [hsp]
    omega

/-- Witness for C13: five decoded samples give two frames; at seek position 1 a
request for five frames converts the samples of index 2 and 3, and the sample of
index 4 is never read. -/
theorem readSampleFrames_inside_sampleBuf_witness :
    readIndices 5 (seekSampleFrame 1 (tryOpen (some oddSamples) closed).2).2 = [2, 3] ∧
    (∀ k ∈ readIndices 5 (seekSampleFrame 1 (tryOpen (some oddSamples) closed).2).2,
      k < 5) ∧
    (readSampleFrames id 5
      (seekSampleFrame 1 (tryOpen (some oddSamples) closed).2).2).sampleBuffer.length = 2 := by
  have h := readSampleFrames_inside_sampleBuf id oddSamples closed 1 5 (by decide)
    (by decide)
  refine ⟨by decide, fun k hk => (h.1 k hk).2.2.2.1, ?_⟩
  have hlen := h.2.2
  have hr : (readSampleFrames id 5
      (seekSampleFrame 1 (tryOpen (some oddSamples) closed).2).2).readFrames = 1 := by
    decide
  rw [hr] at hlen
  exact_mod_cast hlen

end ModPlugTheorems
